import Mathlib

/-!
Shallow embedding of the IDEX WebSocket SDK client:
the `WebSocketClient` class (connection lifecycle, reconnection policy,
subscription routing and sends) and the message/subscription transforms of
`src/client/webSocket/transform.ts`.

TypeScript values are modelled as follows: optional fields become `Option`,
JSON-absent keys are `none`, machine numbers that the code never does
arithmetic on become `Nat`/`String` as appropriate, thrown exceptions become
`Except` errors, and each send operation returns the list of frames actually
written to the transport alongside its result.
-/

namespace IdexWS

/-- Error taxonomy of the spec (§7).  The source throws plain `Error`
values with distinguishing messages; each constructor corresponds to one
throw site / taxonomy entry. -/
inductive Err where
  | notConnectedError
  | configurationError
  | tokenFetchError
deriving DecidableEq

deriving instance DecidableEq for Except

/-- A subscription as passed to `subscribe`
(`request.InternalSubscription`).  The request type definitions are not
under src/; modelled from the spec (§3): a named topic plus optional
market filter, optional wallet, and for authenticated topics the wallet is
a local token-lookup key. -/
structure InternalSubscription where
  name : String
  markets : Option (List String) := none
  wallet : Option String := none
deriving DecidableEq

/-- Modelled from the spec: the authenticated-topic name set
(`request.AuthenticatedSubscriptionName`, not under src/).  Per the spec's
glossary, the wallet-scoped topics are the balance and order feeds. -/
def AuthenticatedSubscriptionName : List String := ["balances", "orders"]

/-- Helper `isAuthenticatedSubscription` from the client module:
`Object.keys(AuthenticatedSubscriptionName).includes(subscription.name)`. -/
def isAuthenticatedSubscription (s : InternalSubscription) : Bool :=
  AuthenticatedSubscriptionName.contains s.name

/-- Function `removeWalletFromSdkSubscription` (transform.ts): copies the
subscription and deletes the wallet key, but only when the wallet is
truthy (`if (subscriptionWithoutWallet.wallet) delete ...`), so an
absent wallet and an empty-string wallet are both left as they are. -/
def removeWalletFromSdkSubscription (s : InternalSubscription) : InternalSubscription :=
  match s.wallet with
  | some w => if w ≠ "" then { s with wallet := none } else s
  | none => s

/-- An outbound wire frame (`request.Request`): what `sendMessage`
serializes.  `none` models a JSON key that is absent from the frame
(`JSON.stringify` drops `undefined` values). -/
structure Request where
  method : String
  cid : Option String := none
  subscriptions : Option (List InternalSubscription) := none
  token : Option String := none
deriving DecidableEq

/-- The `WebSocketClient` instance state.

* `webSocketPresent` — `this.webSocket !== null`;
* `webSocketOpen` — the transport's `readyState === OPEN`;
* `oncloseAttached` — whether the live transport socket still has
  `handleWebSocketClose` installed as its `onclose` callback
  (`createWebSocket` attaches it, `destroyWebSocket` nulls it first);
* `webSocketTokenManager` — whether a `WebsocketTokenManager` was
  constructed (i.e. `options.websocketAuthTokenFetch` was supplied);
* `websocketAuthTokenFetch` — the injected token-fetch capability's
  outcome per wallet; `none` models a rejected fetch. -/
structure WebSocketClient where
  shouldReconnectAutomatically : Bool := false
  reconnectAttempt : Nat := 0
  webSocketPresent : Bool := false
  webSocketOpen : Bool := false
  oncloseAttached : Bool := false
  webSocketTokenManager : Bool := false
  websocketAuthTokenFetch : String → Option String := fun _ => none

/-- Method `isConnected()`: `this.webSocket?.readyState === WebSocket.OPEN`. -/
def isConnected (c : WebSocketClient) : Bool :=
  c.webSocketPresent && c.webSocketOpen

/-- Method `sendMessage(payload)`: `throwIfDisconnected()` then a fire-and-forget
write of the frame to the transport. -/
def sendMessage (c : WebSocketClient) (payload : Request) : Except Err Request :=
  if isConnected c then Except.ok payload else Except.error Err.notConnectedError

/-- Modelled from the spec: `tokenManager.ts` is not under src/.  Models
`WebsocketTokenManager.getLastCachedToken` as read immediately after the
awaited `Promise.all` batch of `getToken` calls inside one `subscribe`
call (spec §4.2): every truthy wallet that was just fetched resolves to the
capability's token, any other key is a cache miss (`undefined`). -/
def getLastCachedToken (c : WebSocketClient) (wallet : Option String) : Option String :=
  match wallet with
  | some w => if w ≠ "" then c.websocketAuthTokenFetch w else none
  | none => none

/-- Local `subscriptions.filter(isAuthenticatedSubscription)` of `subscribe`. -/
def authSubscriptionsOf (subs : List InternalSubscription) : List InternalSubscription :=
  subs.filter isAuthenticatedSubscription

/-- Local `publicSubscriptions` of `subscribe`:
`subscriptions.filter(s => !isAuthenticatedSubscription(s))`. -/
def publicSubscriptionsOf (subs : List InternalSubscription) : List InternalSubscription :=
  subs.filter (fun s => !isAuthenticatedSubscription s)

/-- JS truthiness of an optional wallet string: `undefined` and `''` are
falsy. -/
def truthyWallet (w : Option String) : Bool :=
  match w with
  | some x => x != ""
  | none => false

/-- Semantics of `Array.from(new Set(l))`: removes duplicates keeping the first
occurrence of each element (JS `Set` preserves insertion order). -/
def dedupKeepFirstAux (seen : List String) : List String → List String
  | [] => []
  | x :: xs =>
    if seen.contains x then dedupKeepFirstAux seen xs
    else x :: dedupKeepFirstAux (x :: seen) xs

/-- Entry point of the JS-`Set` dedup. -/
def dedupKeepFirst (l : List String) : List String :=
  dedupKeepFirstAux [] l

/-- Local `uniqueWallets` of `subscribe`: distinct truthy wallets among the authenticated
subscriptions, in first-occurrence order
(`Array.from(new Set(authSubscriptions.filter(s => s.wallet).map(s => s.wallet)))`). -/
def uniqueWalletsOf (subs : List InternalSubscription) : List String :=
  dedupKeepFirst
    (((authSubscriptionsOf subs).filter (fun s => truthyWallet s.wallet)).filterMap
      (fun s => s.wallet))

/-- The `authSubscriptions.forEach` loop of the multi-wallet path: one
frame per authenticated subscription, stopping at the first send failure
(a thrown `sendMessage` aborts the loop).  Returns the loop's result and
the frames actually written. -/
def sendAuthLoop (c : WebSocketClient) (cid : Option String) :
    List InternalSubscription → Except Err Unit × List Request
  | [] => (Except.ok (), [])
  | s :: rest =>
    let payload : Request :=
      { method := "subscribe", cid := cid,
        subscriptions := some [removeWalletFromSdkSubscription s],
        token := getLastCachedToken c s.wallet }
    match sendMessage c payload with
    | Except.error e => (Except.error e, [])
    | Except.ok r =>
      let tail := sendAuthLoop c cid rest
      (tail.1, r :: tail.2)

/-- Method `subscribe(subscriptions, cid?)`: the full routing logic of the
client.  Returns the call's result (`Except.error` models the async
function rejecting) together with the list of frames actually written to
the transport, in send order. -/
def subscribe (c : WebSocketClient) (subscriptions : List InternalSubscription)
    (cid : Option String := none) : Except Err Unit × List Request :=
  if (authSubscriptionsOf subscriptions).length != 0 && !c.webSocketTokenManager then
    (Except.error Err.configurationError, [])
  else if (authSubscriptionsOf subscriptions).length != 0 &&
      (uniqueWalletsOf subscriptions).length == 0 then
    (Except.error Err.configurationError, [])
  else if !((uniqueWalletsOf subscriptions).all
      (fun w => (c.websocketAuthTokenFetch w).isSome)) then
    (Except.error Err.tokenFetchError, [])
  else
    match uniqueWalletsOf subscriptions with
    | [w] =>
      let payload : Request :=
        { method := "subscribe", cid := cid,
          subscriptions := some (subscriptions.map removeWalletFromSdkSubscription),
          token := getLastCachedToken c (some w) }
      match sendMessage c payload with
      | Except.ok r => (Except.ok (), [r])
      | Except.error e => (Except.error e, [])
    | _ =>
      if (publicSubscriptionsOf subscriptions).length > 0 then
        let payload : Request :=
          { method := "subscribe", cid := cid,
            subscriptions := some (publicSubscriptionsOf subscriptions),
            token := none }
        match sendMessage c payload with
        | Except.error e => (Except.error e, [])
        | Except.ok r =>
          let tail := sendAuthLoop c cid (authSubscriptionsOf subscriptions)
          (tail.1, r :: tail.2)
      else
        sendAuthLoop c cid (authSubscriptionsOf subscriptions)

/-- Method `listSubscriptions()`: `sendMessage({ method: 'subscriptions' })`. -/
def listSubscriptions (c : WebSocketClient) : Except Err Unit × List Request :=
  match sendMessage c { method := "subscriptions" } with
  | Except.ok r => (Except.ok (), [r])
  | Except.error e => (Except.error e, [])

/-- Method `unsubscribe(subscriptions)`: one verbatim unsubscribe frame, no token
handling. -/
def unsubscribe (c : WebSocketClient) (subscriptions : List InternalSubscription) :
    Except Err Unit × List Request :=
  match sendMessage c { method := "unsubscribe", subscriptions := some subscriptions } with
  | Except.ok r => (Except.ok (), [r])
  | Except.error e => (Except.error e, [])

/-- Method `subscribeAuthenticated(subscriptions)`: calls the async `subscribe`
without awaiting it and returns `void`, so the sends still happen but the
promise's rejection is discarded — the wrapper itself never fails. -/
def subscribeAuthenticated (c : WebSocketClient) (subscriptions : List InternalSubscription) :
    Except Err Unit × List Request :=
  (Except.ok (), (subscribe c subscriptions none).2)

/-- Method `subscribeUnauthenticated(subscriptions)`: same fire-and-forget
delegation to `subscribe`. -/
def subscribeUnauthenticated (c : WebSocketClient) (subscriptions : List InternalSubscription) :
    Except Err Unit × List Request :=
  (Except.ok (), (subscribe c subscriptions none).2)

/- Connection lifecycle. -/

/-- Method `createWebSocket()`: constructs the transport socket (not yet open)
and installs the message/close/error handlers. -/
def createWebSocket (c : WebSocketClient) : WebSocketClient :=
  { c with webSocketPresent := true, webSocketOpen := false, oncloseAttached := true }

/-- Method `destroyWebSocket()`: detaches the close handler first
(`this.webSocket.onclose = null // Do not reconnect`), closes the
transport and clears the handle. -/
def destroyWebSocket (c : WebSocketClient) : WebSocketClient :=
  { c with oncloseAttached := false, webSocketOpen := false, webSocketPresent := false }

/-- Method `disconnect()`: no-op when no socket exists, otherwise destroys the
socket (and fires the disconnect listeners). -/
def disconnect (c : WebSocketClient) : WebSocketClient :=
  if c.webSocketPresent then destroyWebSocket c else c

/-- Method `reconnect()`: computes the backoff delay `2 ** reconnectAttempt`
seconds from the current counter, increments the counter, and schedules
`connect` after that delay.  Returns the new state and the scheduled
delay in seconds. -/
def reconnect (c : WebSocketClient) : WebSocketClient × Nat :=
  ({ c with reconnectAttempt := c.reconnectAttempt + 1 }, 2 ^ c.reconnectAttempt)

/-- Handler `handleWebSocketClose()`: clears the socket handle, fires disconnect
listeners, and — only when the reconnect policy is enabled — schedules a
reconnect.  Returns the new state and the scheduled delay, if any. -/
def handleWebSocketClose (c : WebSocketClient) : WebSocketClient × Option Nat :=
  let c1 := { c with webSocketPresent := false, webSocketOpen := false,
                     oncloseAttached := false }
  if c1.shouldReconnectAutomatically then
    let r := reconnect c1
    (r.1, some r.2)
  else
    (c1, none)

/-- A transport-initiated close event: the underlying socket is no longer
open, and the client's `handleWebSocketClose` runs only if it is still
attached as the socket's `onclose` callback. -/
def transportClose (c : WebSocketClient) : WebSocketClient × Option Nat :=
  if c.oncloseAttached then
    handleWebSocketClose { c with webSocketOpen := false }
  else
    ({ c with webSocketOpen := false }, none)

/-- The completed `connect()` call: a no-op when already connected;
otherwise it creates the socket if absent, suspends until the transport
reports `OPEN`, resets the reconnection state
(`this.reconnectAttempt = 0`) and fires the connect listeners. -/
def connect (c : WebSocketClient) : WebSocketClient :=
  if isConnected c then c
  else { c with webSocketPresent := true, webSocketOpen := true,
                oncloseAttached := true, reconnectAttempt := 0 }

/- Message normalizer (transform.ts).  The short-form response types are
not under src/; their shapes are modelled from the spec (§3, §4.1):
required fields are plain, conditionally-present fields are `Option`. -/

/-- The JS conditional-spread idiom `...(x && { k: x })` for a number
field: the key is produced only when `x` is present and truthy, i.e.
non-zero (`0` is falsy in JS). -/
def spreadIfTruthyNat (x : Option Nat) : Option Nat :=
  match x with
  | some v => if v != 0 then some v else none
  | none => none

/-- The JS conditional-spread idiom `...(x && { k: x })` for a string
field: the key is produced only when `x` is present and truthy, i.e.
non-empty (`''` is falsy in JS). -/
def spreadIfTruthyString (x : Option String) : Option String :=
  match x with
  | some s => if s != "" then some s else none
  | none => none

/-- Short-form ticker payload (`webSocketResponse.TickerShort`); `n`
(trade count) is the conditionally-present field. -/
structure TickerShort where
  m : String
  t : Nat
  o : String
  h : String
  l : String
  c : String
  Q : String
  v : String
  q : String
  P : String
  n : Option Nat := none
  a : String
  b : String
  u : Nat
deriving DecidableEq

/-- Long-form ticker (`restResponse.Ticker`).  The source field named
`open` is rendered `openPrice` here because `open` is a Lean keyword. -/
structure Ticker where
  market : String
  time : Nat
  openPrice : String
  high : String
  low : String
  close : String
  closeQuantity : String
  baseVolume : String
  quoteVolume : String
  percentChange : String
  numTrades : Option Nat := none
  ask : String
  bid : String
  sequence : Nat
deriving DecidableEq

/-- Function `transformTickersMessage`: field-by-field expansion; `numTrades`
comes from the conditional spread `...(ticker.n && { numTrades: ticker.n })`. -/
def transformTickersMessage (ticker : TickerShort) : Ticker :=
  { market := ticker.m
    time := ticker.t
    openPrice := ticker.o
    high := ticker.h
    low := ticker.l
    close := ticker.c
    closeQuantity := ticker.Q
    baseVolume := ticker.v
    quoteVolume := ticker.q
    percentChange := ticker.P
    numTrades := spreadIfTruthyNat ticker.n
    ask := ticker.a
    bid := ticker.b
    sequence := ticker.u }

/-- Short-form order fill (`webSocketResponse.OrderFillShort`); `g` (gas)
and `T` (transaction id) are the conditionally-present fields. -/
structure OrderFillShort where
  i : String
  p : String
  q : String
  Q : String
  t : Nat
  s : String
  u : Nat
  f : String
  a : String
  g : Option String := none
  l : String
  T : Option String := none
  S : String
deriving DecidableEq

/-- Long-form order fill (`restResponse.OrderFill`). -/
structure OrderFill where
  fillId : String
  price : String
  quantity : String
  quoteQuantity : String
  time : Nat
  makerSide : String
  sequence : Nat
  fee : String
  feeAsset : String
  gas : Option String := none
  liquidity : String
  txId : Option String := none
  txStatus : String
deriving DecidableEq

/-- Function `transformOrderFill`: expansion of one fill; `gas` and `txId` come
from the conditional spreads `...(fill.g && { gas: fill.g })` and
`...(fill.T && { txId: fill.T })`. -/
def transformOrderFill (fill : OrderFillShort) : OrderFill :=
  { fillId := fill.i
    price := fill.p
    quantity := fill.q
    quoteQuantity := fill.Q
    time := fill.t
    makerSide := fill.s
    sequence := fill.u
    fee := fill.f
    feeAsset := fill.a
    gas := spreadIfTruthyString fill.g
    liquidity := fill.l
    txId := spreadIfTruthyString fill.T
    txStatus := fill.S }

/-- Short-form order payload (`webSocketResponse.OrderShort`); `u`, `Q`,
`v`, `p`, `P` and `F` are the conditionally-present fields. -/
structure OrderShort where
  m : String
  i : String
  c : String
  w : String
  t : Nat
  T : Nat
  x : String
  X : String
  u : Option Nat := none
  o : String
  S : String
  q : String
  Q : Option String := none
  z : String
  Z : String
  v : Option String := none
  p : Option String := none
  P : Option String := none
  f : String
  V : String
  F : Option (List OrderFillShort) := none
deriving DecidableEq

/-- Long-form order payload (`webSocketResponse.OrderLong`). -/
structure OrderLong where
  market : String
  orderId : String
  clientOrderId : String
  wallet : String
  time : Nat
  timeOfOriginalOrder : Nat
  executionType : String
  status : String
  orderBookSequenceNumber : Option Nat := none
  type : String
  side : String
  originalQuantity : String
  originalQuoteQuantity : Option String := none
  executedQuantity : String
  cumulativeQuoteQuantity : String
  avgExecutionPrice : Option String := none
  limitOrderPrice : Option String := none
  stopOrderPrice : Option String := none
  timeInForce : String
  selfTradePrevention : String
  fills : Option (List OrderFill) := none
deriving DecidableEq

/-- Function `transformOrdersMessage`: field-by-field expansion.  The optional
scalar fields use the conditional spread (`...(order.u && {...})` etc.);
the fills array uses `...(order.F && { fills: order.F.map(transformOrderFill) })`
— a JS array is always truthy (even `[]`), so a present fill list is
always carried, element-wise transformed. -/
def transformOrdersMessage (order : OrderShort) : OrderLong :=
  { market := order.m
    orderId := order.i
    clientOrderId := order.c
    wallet := order.w
    time := order.t
    timeOfOriginalOrder := order.T
    executionType := order.x
    status := order.X
    orderBookSequenceNumber := spreadIfTruthyNat order.u
    type := order.o
    side := order.S
    originalQuantity := order.q
    originalQuoteQuantity := spreadIfTruthyString order.Q
    executedQuantity := order.z
    cumulativeQuoteQuantity := order.Z
    avgExecutionPrice := spreadIfTruthyString order.v
    limitOrderPrice := spreadIfTruthyString order.p
    stopOrderPrice := spreadIfTruthyString order.P
    timeInForce := order.f
    selfTradePrevention := order.V
    fills := order.F.map (fun fs => fs.map transformOrderFill) }

/- Helper lemmas. -/

theorem mem_of_mem_dedupKeepFirstAux :
    ∀ (l seen : List String) (x : String), x ∈ dedupKeepFirstAux seen l → x ∈ l := by
  intro l
  induction l with
  | nil => intro seen x h; simp [dedupKeepFirstAux] at h
  | cons y ys ih =>
    intro seen x h
    simp only [dedupKeepFirstAux] at h
    by_cases hc : seen.contains y = true
    · rw [if_pos hc] at h
      exact List.mem_cons_of_mem _ (ih _ _ h)
    · rw [if_neg hc] at h
      rcases List.mem_cons.mp h with h1 | h2
      · exact h1 ▸ List.mem_cons_self _ _
      · exact List.mem_cons_of_mem _ (ih _ _ h2)

theorem mem_of_mem_dedupKeepFirst (l : List String) (x : String)
    (h : x ∈ dedupKeepFirst l) : x ∈ l :=
  mem_of_mem_dedupKeepFirstAux l [] x h

/-- Every wallet in `uniqueWallets` is non-empty and comes from some
authenticated subscription of the input. -/
theorem mem_uniqueWalletsOf (subs : List InternalSubscription) (w : String)
    (h : w ∈ uniqueWalletsOf subs) :
    w ≠ "" ∧ ∃ s ∈ authSubscriptionsOf subs, s.wallet = some w := by
  have h1 := mem_of_mem_dedupKeepFirst _ _ h
  rcases List.mem_filterMap.mp h1 with ⟨s, hs, hw⟩
  rcases List.mem_filter.mp hs with ⟨hsa, hst⟩
  refine ⟨?_, s, hsa, hw⟩
  rw [hw] at hst
  simpa [truthyWallet] using hst

theorem uniqueWalletsOf_nil_of_auth_nil (subs : List InternalSubscription)
    (h : authSubscriptionsOf subs = []) : uniqueWalletsOf subs = [] := by
  simp [uniqueWalletsOf, h, dedupKeepFirst, dedupKeepFirstAux]

theorem auth_ne_nil_of_uniqueWallets_ne_nil (subs : List InternalSubscription)
    (h : uniqueWalletsOf subs ≠ []) : authSubscriptionsOf subs ≠ [] := by
  intro ha
  exact h (uniqueWalletsOf_nil_of_auth_nil subs ha)

theorem mem_authSubscriptionsOf (subs : List InternalSubscription)
    (s : InternalSubscription) (h : s ∈ authSubscriptionsOf subs) :
    s ∈ subs ∧ isAuthenticatedSubscription s = true :=
  List.mem_filter.mp h

theorem mem_publicSubscriptionsOf (subs : List InternalSubscription)
    (s : InternalSubscription) (h : s ∈ publicSubscriptionsOf subs) :
    s ∈ subs ∧ isAuthenticatedSubscription s = false := by
  rcases List.mem_filter.mp h with ⟨h1, h2⟩
  exact ⟨h1, by simpa using h2⟩

/-- On wallets that are not the empty string, the source's truthiness-guarded
delete behaves as a plain strip of the wallet field. -/
theorem removeWallet_eq_strip (s : InternalSubscription) (h : s.wallet ≠ some "") :
    removeWalletFromSdkSubscription s = { s with wallet := none } := by
  obtain ⟨n, m, w⟩ := s
  cases w with
  | none => rfl
  | some x =>
    have hx : x ≠ "" := by
      intro he
      exact h (by simp [he])
    simp [removeWalletFromSdkSubscription, hx]

theorem removeWallet_wallet_none (s : InternalSubscription) (h : s.wallet ≠ some "") :
    (removeWalletFromSdkSubscription s).wallet = none := by
  rw [removeWallet_eq_strip s h]

/-- On wallet keys that are not the empty string, the post-batch cache read
is exactly the injected capability's value, absent key included. -/
theorem getLastCachedToken_eq_bind (c : WebSocketClient) (w : Option String)
    (h : w ≠ some "") :
    getLastCachedToken c w = w.bind c.websocketAuthTokenFetch := by
  cases w with
  | none => rfl
  | some x =>
    have hx : x ≠ "" := by
      intro he
      exact h (by simp [he])
    simp [getLastCachedToken, hx]

theorem sendMessage_ok (c : WebSocketClient) (p r : Request)
    (h : sendMessage c p = Except.ok r) : r = p := by
  unfold sendMessage at h
  split at h
  · cases h; rfl
  · cases h

theorem sendMessage_connected (c : WebSocketClient) (p : Request)
    (hc : isConnected c = true) : sendMessage c p = Except.ok p := by
  simp [sendMessage, hc]

theorem sendMessage_disconnected (c : WebSocketClient) (p : Request)
    (hc : isConnected c = false) :
    sendMessage c p = Except.error Err.notConnectedError := by
  simp [sendMessage, hc]

/-- While connected, the per-subscription loop sends one frame per
authenticated subscription, in order, and succeeds. -/
theorem sendAuthLoop_connected (c : WebSocketClient) (cid : Option String)
    (hc : isConnected c = true) :
    ∀ l : List InternalSubscription,
      sendAuthLoop c cid l =
        (Except.ok (), l.map (fun s =>
          { method := "subscribe", cid := cid,
            subscriptions := some [removeWalletFromSdkSubscription s],
            token := getLastCachedToken c s.wallet })) := by
  intro l
  induction l with
  | nil => rfl
  | cons s rest ih =>
    simp [sendAuthLoop, sendMessage_connected c _ hc, ih]

/-- While disconnected, the per-subscription loop writes nothing. -/
theorem sendAuthLoop_disconnected (c : WebSocketClient) (cid : Option String)
    (hc : isConnected c = false) (l : List InternalSubscription) :
    (sendAuthLoop c cid l).2 = [] := by
  cases l with
  | nil => rfl
  | cons s rest => simp [sendAuthLoop, sendMessage_disconnected c _ hc]

/-- Every frame the loop writes is a singleton frame for one of the loop's
subscriptions. -/
theorem sendAuthLoop_frames_shape (c : WebSocketClient) (cid : Option String) :
    ∀ l : List InternalSubscription, ∀ r ∈ (sendAuthLoop c cid l).2,
      ∃ s0 ∈ l, r = { method := "subscribe", cid := cid,
                      subscriptions := some [removeWalletFromSdkSubscription s0],
                      token := getLastCachedToken c s0.wallet } := by
  intro l
  induction l with
  | nil => intro r hr; simp [sendAuthLoop] at hr
  | cons s rest ih =>
    intro r hr
    simp only [sendAuthLoop] at hr
    cases hsm : sendMessage c { method := "subscribe", cid := cid, subscriptions := some [removeWalletFromSdkSubscription s], token := getLastCachedToken c s.wallet } with
    | error e => rw [hsm] at hr; simp at hr
    | ok r0 =>
      rw [hsm] at hr
      have hr0 := sendMessage_ok c _ _ hsm
      simp only [List.mem_cons] at hr
      rcases hr with h1 | h2
      · exact ⟨s, List.mem_cons_self _ _, by rw [h1, hr0]⟩
      · rcases ih r h2 with ⟨s0, hs0, he⟩
        exact ⟨s0, List.mem_cons_of_mem _ hs0, he⟩

/- Concrete fixtures used by witnesses and counterexamples. -/

/-- A connected client with a token manager whose fetch capability
resolves every wallet. -/
def clientConnected : WebSocketClient :=
  { shouldReconnectAutomatically := false, reconnectAttempt := 0,
    webSocketPresent := true, webSocketOpen := true, oncloseAttached := true,
    webSocketTokenManager := true,
    websocketAuthTokenFetch := fun w => some ("token-" ++ w) }

/-- The same client with the transport not open. -/
def clientDisconnected : WebSocketClient :=
  { clientConnected with webSocketOpen := false }

/-- A mixed batch spanning two wallets: one public subscription and two
authenticated subscriptions with distinct wallets. -/
def subsMulti : List InternalSubscription :=
  [{ name := "tickers" },
   { name := "balances", wallet := some "0xA" },
   { name := "orders", wallet := some "0xB" }]

/-- A batch for one wallet: one public and one authenticated subscription. -/
def subsSingle : List InternalSubscription :=
  [{ name := "tickers" },
   { name := "balances", wallet := some "0xA" }]

/-- A batch containing an authenticated subscription whose wallet is the
empty string (falsy but present) next to a normally-walleted one. -/
def subsEmptyWallet : List InternalSubscription :=
  [{ name := "balances", wallet := some "" },
   { name := "balances", wallet := some "0xA" }]

/- Claim theorems. -/

/-- C9: `subscribe` called with an empty subscriptions array sends no
frames and completes successfully, whatever the connection state, token
manager configuration and fetch capability — no error and no frame for
empty input. -/
theorem subscribe_empty_noop (c : WebSocketClient) (cid : Option String) :
    subscribe c [] cid = (Except.ok (), []) := rfl

theorem subscribe_empty_noop_witness :
    subscribe clientDisconnected [] (some "cid0") = (Except.ok (), []) :=
  subscribe_empty_noop clientDisconnected (some "cid0")

/-- C10: `subscribeAuthenticated` and `subscribeUnauthenticated` invoke
the async `subscribe` without awaiting it and return `void`: the frames
of the underlying `subscribe` are still sent, but the wrapper's own
result is always success — any rejection of `subscribe` (configuration
error, not-connected error, token-fetch rejection) never reaches the
wrapper's caller. -/
theorem subscribe_wrappers_swallow_errors (c : WebSocketClient)
    (subs : List InternalSubscription) :
    (subscribeAuthenticated c subs).1 = Except.ok () ∧
    (subscribeAuthenticated c subs).2 = (subscribe c subs none).2 ∧
    (subscribeUnauthenticated c subs).1 = Except.ok () ∧
    (subscribeUnauthenticated c subs).2 = (subscribe c subs none).2 ∧
    ∀ e : Err, (subscribe c subs none).1 = Except.error e →
      (subscribeAuthenticated c subs).1 = Except.ok () ∧
      (subscribeUnauthenticated c subs).1 = Except.ok () :=
  ⟨rfl, rfl, rfl, rfl, fun _ _ => ⟨rfl, rfl⟩⟩

theorem subscribe_wrappers_swallow_errors_witness :
    (subscribeAuthenticated { clientConnected with webSocketTokenManager := false }
        [{ name := "orders", wallet := some "0xA" }]).1 = Except.ok () ∧
    (subscribeUnauthenticated { clientConnected with webSocketTokenManager := false }
        [{ name := "orders", wallet := some "0xA" }]).1 = Except.ok () :=
  (subscribe_wrappers_swallow_errors
      { clientConnected with webSocketTokenManager := false }
      [{ name := "orders", wallet := some "0xA" }]).2.2.2.2
    Err.configurationError (by decide)

/-- A disconnected `subscribe` call never writes a frame, whichever path
it takes. -/
theorem subscribe_frames_nil_of_disconnected (c : WebSocketClient)
    (subs : List InternalSubscription) (cid : Option String)
    (hc : isConnected c = false) : (subscribe c subs cid).2 = [] := by
  simp only [subscribe]
  split
  · rfl
  split
  · rfl
  split
  · rfl
  split
  · simp [sendMessage_disconnected c _ hc]
  · split
    · simp [sendMessage_disconnected c _ hc]
    · exact sendAuthLoop_disconnected c cid hc _

/-- C5: every send operation fails with `NotConnectedError` whenever the
session is not connected at send time, and nothing is queued or buffered:
the underlying `sendMessage` rejects and writes nothing, so
`listSubscriptions` and `unsubscribe` fail with `NotConnectedError` having
written no frame, and a disconnected `subscribe` call writes no frame
either. -/
theorem sends_fail_when_disconnected (c : WebSocketClient)
    (p : Request) (subs : List InternalSubscription) (cid : Option String)
    (hc : isConnected c = false) :
    sendMessage c p = Except.error Err.notConnectedError ∧
    listSubscriptions c = (Except.error Err.notConnectedError, []) ∧
    unsubscribe c subs = (Except.error Err.notConnectedError, []) ∧
    (subscribe c subs cid).2 = [] := by
  refine ⟨sendMessage_disconnected c p hc, ?_, ?_,
    subscribe_frames_nil_of_disconnected c subs cid hc⟩
  · simp [listSubscriptions, sendMessage_disconnected c _ hc]
  · simp [unsubscribe, sendMessage_disconnected c _ hc]

theorem sends_fail_when_disconnected_witness :
    sendMessage clientDisconnected { method := "subscriptions" } =
      Except.error Err.notConnectedError ∧
    listSubscriptions clientDisconnected = (Except.error Err.notConnectedError, []) ∧
    unsubscribe clientDisconnected subsSingle = (Except.error Err.notConnectedError, []) ∧
    (subscribe clientDisconnected subsSingle none).2 = [] :=
  sends_fail_when_disconnected clientDisconnected { method := "subscriptions" }
    subsSingle none (by decide)

/-- C6: `subscribe` fails with `ConfigurationError`, having sent no frame
and fetched no token, whenever at least one authenticated subscription is
present and either no token-fetch capability was configured or no
authenticated subscription carries a wallet. -/
theorem subscribe_configuration_error (c : WebSocketClient)
    (subs : List InternalSubscription) (cid : Option String)
    (ha : authSubscriptionsOf subs ≠ [])
    (hcfg : c.webSocketTokenManager = false ∨
      ∀ s ∈ authSubscriptionsOf subs, s.wallet = none) :
    subscribe c subs cid = (Except.error Err.configurationError, []) := by
  have hlen : ((authSubscriptionsOf subs).length != 0) = true := by
    simp only [bne_iff_ne, ne_eq, List.length_eq_zero]
    exact ha
  rcases hcfg with hm | hw
  · simp [subscribe, hlen, hm]
  · have huw : uniqueWalletsOf subs = [] := by
      have hfil : (authSubscriptionsOf subs).filter (fun s => truthyWallet s.wallet) = [] := by
        rw [List.filter_eq_nil_iff]
        intro s hs
        rw [hw s hs]
        simp [truthyWallet]
      simp [uniqueWalletsOf, hfil, dedupKeepFirst, dedupKeepFirstAux]
    cases hm : c.webSocketTokenManager with
    | false => simp [subscribe, hlen, hm]
    | true => simp [subscribe, hlen, hm, huw]

theorem subscribe_configuration_error_witness :
    subscribe { clientConnected with webSocketTokenManager := false }
        [{ name := "orders", wallet := some "0xA" }] none =
      (Except.error Err.configurationError, []) :=
  subscribe_configuration_error { clientConnected with webSocketTokenManager := false }
    [{ name := "orders", wallet := some "0xA" }] none (by decide) (Or.inl (by decide))

/-- C7: the reconnection policy is deterministic exponential backoff.  A
transport-initiated close with the close handler attached and the policy
enabled schedules a reconnect after exactly `2 ^ reconnectAttempt`
seconds and increments the attempt counter by one; `reconnect()` itself
always schedules `2 ^ attempt` seconds and increments; and a `connect()`
that establishes the connection resets the counter to zero (a `connect()`
that early-returns because the session is already connected leaves the
counter unchanged, which keeps it at zero in every reachable connected
state). -/
theorem reconnect_exponential_backoff :
    (∀ c : WebSocketClient, c.oncloseAttached = true →
      c.shouldReconnectAutomatically = true →
        (transportClose c).2 = some (2 ^ c.reconnectAttempt) ∧
        (transportClose c).1.reconnectAttempt = c.reconnectAttempt + 1) ∧
    (∀ c : WebSocketClient,
      (reconnect c).2 = 2 ^ c.reconnectAttempt ∧
      (reconnect c).1.reconnectAttempt = c.reconnectAttempt + 1) ∧
    (∀ c : WebSocketClient, isConnected c = false →
      (connect c).reconnectAttempt = 0) ∧
    (∀ c : WebSocketClient, isConnected c = true → c.reconnectAttempt = 0 →
      (connect c).reconnectAttempt = 0) := by
  refine ⟨?_, ?_, ?_, ?_⟩
  · intro c h1 h2
    simp [transportClose, handleWebSocketClose, reconnect, h1, h2]
  · intro c
    simp [reconnect]
  · intro c hc
    simp [connect, hc]
  · intro c hc h0
    simp [connect, hc, h0]

/-- The concrete client used for the reconnect witnesses: policy enabled,
two reconnects already scheduled. -/
def clientReconnecting : WebSocketClient :=
  { clientConnected with shouldReconnectAutomatically := true, reconnectAttempt := 2 }

theorem reconnect_exponential_backoff_witness :
    ((transportClose clientReconnecting).2 = some (2 ^ 2) ∧
      (transportClose clientReconnecting).1.reconnectAttempt = 2 + 1) ∧
    (connect clientDisconnected).reconnectAttempt = 0 :=
  ⟨reconnect_exponential_backoff.1 clientReconnecting (by decide) (by decide),
    reconnect_exponential_backoff.2.2.1 clientDisconnected (by decide)⟩

/-- C8: a reconnect is scheduled only by a transport-initiated close with
the reconnect policy enabled, and never as a consequence of an explicit
`disconnect()`: `disconnect()` detaches the close handler before closing,
so a transport close callback arriving after an explicit `disconnect()`
finds no handler and schedules nothing; without the policy a
transport-initiated close schedules nothing either; with the handler
attached and the policy enabled it schedules exactly one reconnect. -/
theorem no_reconnect_after_explicit_disconnect :
    (∀ c : WebSocketClient, c.webSocketPresent = true →
      (transportClose (disconnect c)).2 = none) ∧
    (∀ c : WebSocketClient, c.shouldReconnectAutomatically = false →
      (transportClose c).2 = none) ∧
    (∀ c : WebSocketClient, c.oncloseAttached = true →
      c.shouldReconnectAutomatically = true →
        (transportClose c).2 = some (2 ^ c.reconnectAttempt)) := by
  refine ⟨?_, ?_, ?_⟩
  · intro c hp
    simp [disconnect, hp, destroyWebSocket, transportClose]
  · intro c hr
    by_cases ha : c.oncloseAttached = true
    · simp [transportClose, ha, handleWebSocketClose, hr]
    · simp only [Bool.not_eq_true] at ha
      simp [transportClose, ha]
  · intro c ha hr
    simp [transportClose, ha, handleWebSocketClose, reconnect, hr]

/-- The concrete client used for the disconnect witnesses: connected with
the reconnect policy enabled. -/
def clientAutoReconnect : WebSocketClient :=
  { clientConnected with shouldReconnectAutomatically := true }

theorem no_reconnect_after_explicit_disconnect_witness :
    (transportClose (disconnect clientAutoReconnect)).2 = none ∧
    (transportClose clientAutoReconnect).2 = some (2 ^ 0) :=
  ⟨no_reconnect_after_explicit_disconnect.1 clientAutoReconnect (by decide),
    no_reconnect_after_explicit_disconnect.2.2 clientAutoReconnect (by decide) (by decide)⟩

/-- Every frame `subscribe` writes carries one of three subscription
lists: the whole input with the truthiness-guarded wallet removal applied
(single-wallet path), the public subscriptions verbatim (multi-wallet
path), or a singleton for one authenticated subscription with the
truthiness-guarded wallet removal applied (multi-wallet path). -/
theorem subscribe_frames_shape (c : WebSocketClient)
    (subs : List InternalSubscription) (cid : Option String) :
    ∀ r ∈ (subscribe c subs cid).2,
      r.subscriptions = some (subs.map removeWalletFromSdkSubscription) ∨
      r.subscriptions = some (publicSubscriptionsOf subs) ∨
      ∃ s0 ∈ authSubscriptionsOf subs,
        r.subscriptions = some [removeWalletFromSdkSubscription s0] := by
  intro r hr
  simp only [subscribe] at hr
  split at hr
  · simp at hr
  split at hr
  · simp at hr
  split at hr
  · simp at hr
  split at hr
  case _ w heq =>
    cases hsm : sendMessage c { method := "subscribe", cid := cid, subscriptions := some (subs.map removeWalletFromSdkSubscription), token := getLastCachedToken c (some w) } with
    | error e => rw [hsm] at hr; simp at hr
    | ok r0 =>
      rw [hsm] at hr
      simp only [List.mem_singleton] at hr
      left
      rw [hr, sendMessage_ok c _ _ hsm]
  case _ heq =>
    split at hr
    · cases hsm : sendMessage c { method := "subscribe", cid := cid, subscriptions := some (publicSubscriptionsOf subs), token := none } with
      | error e => rw [hsm] at hr; simp at hr
      | ok r0 =>
        rw [hsm] at hr
        simp only [List.mem_cons] at hr
        rcases hr with h1 | h2
        · right; left
          rw [h1, sendMessage_ok c _ _ hsm]
        · right; right
          rcases sendAuthLoop_frames_shape c cid _ r h2 with ⟨s0, hs0, he⟩
          exact ⟨s0, hs0, by rw [he]⟩
    · right; right
      rcases sendAuthLoop_frames_shape c cid _ r hr with ⟨s0, hs0, he⟩
      exact ⟨s0, hs0, by rw [he]⟩

/-- C1 (amended): provided wallets appear only on authenticated
subscriptions (the request types) and no present wallet is the empty
string, no frame `subscribe` writes contains a subscription with its
wallet field present — the wallet is only a local token-lookup key.  (A
present-but-empty-string wallet would survive the truthiness-guarded
strip; see the counterexample.) -/
theorem subscribe_strips_wallets_from_all_frames (c : WebSocketClient)
    (subs : List InternalSubscription) (cid : Option String)
    (h1 : ∀ s ∈ subs, s.wallet.isSome = true → isAuthenticatedSubscription s = true)
    (h2 : ∀ s ∈ subs, s.wallet ≠ some "") :
    ∀ r ∈ (subscribe c subs cid).2, ∀ s ∈ r.subscriptions.getD [], s.wallet = none := by
  intro r hr s hs
  rcases subscribe_frames_shape c subs cid r hr with h | h | ⟨s0, hs0, h⟩
  · rw [h] at hs
    simp only [Option.getD_some] at hs
    rcases List.mem_map.mp hs with ⟨t, ht, he⟩
    rw [← he]
    exact removeWallet_wallet_none t (h2 t ht)
  · rw [h] at hs
    simp only [Option.getD_some] at hs
    rcases mem_publicSubscriptionsOf subs s hs with ⟨hmem, hpub⟩
    cases hw : s.wallet with
    | none => rfl
    | some x =>
      have : isAuthenticatedSubscription s = true := h1 s hmem (by simp [hw])
      rw [this] at hpub
      cases hpub
  · rw [h] at hs
    simp only [Option.getD_some, List.mem_singleton] at hs
    rw [hs]
    exact removeWallet_wallet_none s0
      (h2 s0 (mem_authSubscriptionsOf subs s0 hs0).1)

theorem subscribe_strips_wallets_witness :
    ({ method := "subscribe", cid := some "cid1",
       subscriptions := some [{ name := "balances", wallet := none }],
       token := some "token-0xA" } : Request) ∈
        (subscribe clientConnected subsMulti (some "cid1")).2 ∧
    ({ name := "balances", wallet := none } : InternalSubscription).wallet = none :=
  ⟨by decide,
    subscribe_strips_wallets_from_all_frames clientConnected subsMulti (some "cid1")
      (by decide) (by decide)
      { method := "subscribe", cid := some "cid1",
        subscriptions := some [{ name := "balances", wallet := none }],
        token := some "token-0xA" }
      (by decide)
      { name := "balances", wallet := none }
      (by decide)⟩

/-- C1 counterexample: a `subscribe` call that completes successfully and
yet transmits a subscription whose wallet field is present — the
empty-string wallet is falsy, so the truthiness-guarded strip leaves it
in the serialized frame. -/
theorem wallet_on_wire_for_empty_string_wallet :
    (subscribe clientConnected subsEmptyWallet none).1 = Except.ok () ∧
    ¬ (∀ r ∈ (subscribe clientConnected subsEmptyWallet none).2,
        ∀ s ∈ r.subscriptions.getD [], s.wallet = none) := by
  constructor
  · decide
  · decide

/-- C2: with two or more distinct wallets (and no degenerate empty-string
wallet), a connected, configured `subscribe` whose fetches all resolve
sends exactly: one frame with all public subscriptions and no token —
only if a public subscription exists — followed by one frame per
authenticated subscription, each containing only that subscription with
the wallet stripped and carrying the token resolved for that
subscription's wallet (no token when it has no wallet).  No frame mixes
subscriptions of different wallets: every token-bearing frame is a
singleton. -/
theorem subscribe_multi_wallet_frames (c : WebSocketClient)
    (subs : List InternalSubscription) (cid : Option String)
    (h2 : ∀ s ∈ subs, s.wallet ≠ some "")
    (hw : 2 ≤ (uniqueWalletsOf subs).length)
    (hc : isConnected c = true)
    (hm : c.webSocketTokenManager = true)
    (hf : ∀ w ∈ uniqueWalletsOf subs, (c.websocketAuthTokenFetch w).isSome = true) :
    subscribe c subs cid =
      (Except.ok (),
        (if publicSubscriptionsOf subs = [] then [] else
          [{ method := "subscribe", cid := cid,
             subscriptions := some (publicSubscriptionsOf subs), token := none }]) ++
        (authSubscriptionsOf subs).map (fun s =>
          { method := "subscribe", cid := cid,
            subscriptions := some [{ s with wallet := none }],
            token := s.wallet.bind c.websocketAuthTokenFetch })) := by
  have hanil : authSubscriptionsOf subs ≠ [] := by
    apply auth_ne_nil_of_uniqueWallets_ne_nil
    intro h
    rw [h] at hw
    simp at hw
  have hmap : (authSubscriptionsOf subs).map (fun s =>
      ({ method := "subscribe", cid := cid,
         subscriptions := some [removeWalletFromSdkSubscription s],
         token := getLastCachedToken c s.wallet } : Request)) =
      (authSubscriptionsOf subs).map (fun s =>
        ({ method := "subscribe", cid := cid,
           subscriptions := some [{ s with wallet := none }],
           token := s.wallet.bind c.websocketAuthTokenFetch } : Request)) := by
    apply List.map_congr_left
    intro s hs
    have hsw : s.wallet ≠ some "" := h2 s (mem_authSubscriptionsOf subs s hs).1
    rw [removeWallet_eq_strip s hsw, getLastCachedToken_eq_bind c s.wallet hsw]
  have g1 : ((authSubscriptionsOf subs).length != 0 && !c.webSocketTokenManager) = false := by
    rw [hm]
    simp
  have g2 : ((authSubscriptionsOf subs).length != 0 &&
      ((uniqueWalletsOf subs).length == 0)) = false := by
    have : ((uniqueWalletsOf subs).length == 0) = false := by
      simp only [beq_eq_false_iff_ne, ne_eq]
      omega
    rw [this]
    simp
  have g3 : (!((uniqueWalletsOf subs).all
      (fun w => (c.websocketAuthTokenFetch w).isSome))) = false := by
    rw [List.all_eq_true.mpr hf]
    rfl
  simp only [subscribe, g1, g2, g3, Bool.false_eq_true, if_false]
  split
  case _ w heq =>
    rw [heq] at hw
    simp at hw
  case _ heq =>
    by_cases hp : publicSubscriptionsOf subs = []
    · rw [if_neg (by rw [hp]; simp), if_pos hp,
        sendAuthLoop_connected c cid hc (authSubscriptionsOf subs), hmap]
      rfl
    · rw [if_pos (List.length_pos.mpr hp), if_neg hp,
        sendMessage_connected c _ hc]
      simp only [sendAuthLoop_connected c cid hc (authSubscriptionsOf subs), hmap]
      rfl

theorem subscribe_multi_wallet_frames_witness :
    subscribe clientConnected subsMulti (some "cid1") =
      (Except.ok (),
        (if publicSubscriptionsOf subsMulti = [] then [] else
          [{ method := "subscribe", cid := some "cid1",
             subscriptions := some (publicSubscriptionsOf subsMulti), token := none }]) ++
        (authSubscriptionsOf subsMulti).map (fun s =>
          { method := "subscribe", cid := some "cid1",
            subscriptions := some [{ s with wallet := none }],
            token := s.wallet.bind clientConnected.websocketAuthTokenFetch })) :=
  subscribe_multi_wallet_frames clientConnected subsMulti (some "cid1")
    (by decide) (by decide) (by decide) (by decide) (by decide)

/-- C3 (amended): with at most one distinct wallet, a nonempty input, and
a call that completes (configured manager and some wallet whenever an
authenticated subscription exists, all fetches resolving, connected, no
degenerate empty-string wallet), `subscribe` sends exactly one frame
containing all subscriptions — public and authenticated together — with
wallet fields stripped; the frame carries the unique wallet's token, and
the token is omitted exactly when there is no authenticated subscription.
(The amendment: an empty input sends no frame at all, see the
counterexample.) -/
theorem subscribe_single_wallet_single_frame (c : WebSocketClient)
    (subs : List InternalSubscription) (cid : Option String)
    (h1 : ∀ s ∈ subs, s.wallet.isSome = true → isAuthenticatedSubscription s = true)
    (h2 : ∀ s ∈ subs, s.wallet ≠ some "")
    (hle : (uniqueWalletsOf subs).length ≤ 1)
    (hne : subs ≠ [])
    (hc : isConnected c = true)
    (hm : authSubscriptionsOf subs ≠ [] → c.webSocketTokenManager = true)
    (hz : authSubscriptionsOf subs ≠ [] → uniqueWalletsOf subs ≠ [])
    (hf : ∀ w ∈ uniqueWalletsOf subs, (c.websocketAuthTokenFetch w).isSome = true) :
    subscribe c subs cid =
      (Except.ok (),
        [{ method := "subscribe", cid := cid,
           subscriptions := some (subs.map (fun s => { s with wallet := none })),
           token := (uniqueWalletsOf subs).head?.bind c.websocketAuthTokenFetch }]) ∧
    (((uniqueWalletsOf subs).head?.bind c.websocketAuthTokenFetch) = none ↔
      authSubscriptionsOf subs = []) := by
  have g3 : (!((uniqueWalletsOf subs).all
      (fun w => (c.websocketAuthTokenFetch w).isSome))) = false := by
    rw [List.all_eq_true.mpr hf]
    rfl
  cases hu : uniqueWalletsOf subs with
  | nil =>
    have hanil : authSubscriptionsOf subs = [] := by
      by_contra h
      exact (hz h) hu
    have hwnone : ∀ s ∈ subs, s.wallet = none := by
      intro s hs
      have hpub : ¬ isAuthenticatedSubscription s = true := by
        have hfil : subs.filter isAuthenticatedSubscription = [] := hanil
        exact List.filter_eq_nil_iff.mp hfil s hs
      cases hw : s.wallet with
      | none => rfl
      | some x =>
        exact absurd (h1 s hs (by simp [hw])) hpub
    have hpubs : publicSubscriptionsOf subs = subs := by
      apply List.filter_eq_self.mpr
      intro s hs
      have hfil : subs.filter isAuthenticatedSubscription = [] := hanil
      have := List.filter_eq_nil_iff.mp hfil s hs
      simpa using this
    have hstrip : subs.map (fun s => { s with wallet := none }) = subs := by
      have : ∀ s ∈ subs, ({ s with wallet := none } : InternalSubscription) = s := by
        intro s hs
        obtain ⟨n, m, w⟩ := s
        have := hwnone _ hs
        simp only at this
        rw [this]
      calc subs.map (fun s => { s with wallet := none })
          = subs.map (fun s => s) := List.map_congr_left this
        _ = subs := List.map_id' subs
    have g1 : ((authSubscriptionsOf subs).length != 0 && !c.webSocketTokenManager) = false := by
      rw [hanil]
      rfl
    have g2 : ((authSubscriptionsOf subs).length != 0 &&
        ((uniqueWalletsOf subs).length == 0)) = false := by
      rw [hanil]
      rfl
    constructor
    · simp only [subscribe, g1, g2, g3, Bool.false_eq_true, if_false]
      split
      case _ w heq =>
        rw [hu] at heq
        cases heq
      case _ heq =>
        have hlp : (publicSubscriptionsOf subs).length > 0 := by
          rw [hpubs]
          exact List.length_pos.mpr hne
        rw [if_pos hlp, sendMessage_connected c _ hc]
        simp only [hanil, sendAuthLoop, hu, hpubs, hstrip, List.head?_nil, Option.bind]
    · simp [hanil]
  | cons w tail =>
    cases tail with
    | cons w2 t2 =>
      rw [hu] at hle
      simp at hle
    | nil =>
      have hanil : authSubscriptionsOf subs ≠ [] :=
        auth_ne_nil_of_uniqueWallets_ne_nil subs (by rw [hu]; simp)
      have hmgr : c.webSocketTokenManager = true := hm hanil
      have hwne : w ≠ "" := (mem_uniqueWalletsOf subs w (by rw [hu]; simp)).1
      have htok : (c.websocketAuthTokenFetch w).isSome = true :=
        hf w (by rw [hu]; simp)
      have g1 : ((authSubscriptionsOf subs).length != 0 && !c.webSocketTokenManager) = false := by
        rw [hmgr]
        simp
      have g2 : ((authSubscriptionsOf subs).length != 0 &&
          ((uniqueWalletsOf subs).length == 0)) = false := by
        rw [hu]
        simp
      have hmap : subs.map removeWalletFromSdkSubscription =
          subs.map (fun s => { s with wallet := none }) :=
        List.map_congr_left (fun s hs => removeWallet_eq_strip s (h2 s hs))
      constructor
      · simp only [subscribe, g1, g2, g3, Bool.false_eq_true, if_false]
        split
        case _ w' heq =>
          rw [hu] at heq
          injection heq with hww
          subst hww
          rw [sendMessage_connected c _ hc]
          simp only [hmap, List.head?_cons]
          rw [getLastCachedToken_eq_bind c (some w) (by simp [hwne])]
        case _ heq => exact absurd hu (heq w)
      · simp only [List.head?_cons, Option.some_bind]
        constructor
        · intro hnone
          rcases Option.isSome_iff_exists.mp htok with ⟨t, ht⟩
          rw [ht] at hnone
          cases hnone
        · intro h
          exact absurd h hanil

theorem subscribe_single_wallet_single_frame_witness :
    (subscribe clientConnected subsSingle (some "c3") =
      (Except.ok (),
        [{ method := "subscribe", cid := some "c3",
           subscriptions := some (subsSingle.map (fun s => { s with wallet := none })),
           token := (uniqueWalletsOf subsSingle).head?.bind
             clientConnected.websocketAuthTokenFetch }]) ∧
      (((uniqueWalletsOf subsSingle).head?.bind clientConnected.websocketAuthTokenFetch)
          = none ↔ authSubscriptionsOf subsSingle = [])) :=
  subscribe_single_wallet_single_frame clientConnected subsSingle (some "c3")
    (by decide) (by decide) (by decide) (by decide) (by decide)
    (by decide) (by decide) (by decide)

/-- C3 counterexample: an empty input references zero distinct wallets
and completes successfully, yet zero frames are sent where the claim
demands exactly one. -/
theorem subscribe_empty_input_sends_no_frame :
    (uniqueWalletsOf ([] : List InternalSubscription)).length = 0 ∧
    (subscribe clientConnected [] none).1 = Except.ok () ∧
    (subscribe clientConnected [] none).2.length ≠ 1 := by
  refine ⟨rfl, rfl, ?_⟩
  decide

theorem spreadIfTruthyNat_eq_some (x : Option Nat) (v : Nat) :
    spreadIfTruthyNat x = some v ↔ x = some v ∧ v ≠ 0 := by
  cases x with
  | none => simp [spreadIfTruthyNat]
  | some a =>
    by_cases h : a = 0
    · subst h
      simp [spreadIfTruthyNat]
      intro he
      rw [← he]
    · simp only [spreadIfTruthyNat, bne_iff_ne, ne_eq, h, not_false_eq_true, if_true,
        Option.some_inj]
      constructor
      · intro he
        exact ⟨he, by rw [← he]; exact h⟩
      · intro hx
        exact hx.1

theorem spreadIfTruthyString_eq_some (x : Option String) (v : String) :
    spreadIfTruthyString x = some v ↔ x = some v ∧ v ≠ "" := by
  cases x with
  | none => simp [spreadIfTruthyString]
  | some a =>
    by_cases h : a = ""
    · subst h
      simp [spreadIfTruthyString]
      intro he
      rw [← he]
    · simp only [spreadIfTruthyString, bne_iff_ne, ne_eq, h, not_false_eq_true, if_true,
        Option.some_inj]
      constructor
      · intro he
        exact ⟨he, by rw [← he]; exact h⟩
      · intro hx
        exact hx.1

/-- C4 (amended): the normalizer carries an optional scalar field into
the output exactly when the field is present in the input AND truthy
(non-zero number / non-empty string) — a present falsy value is dropped,
not materialized as null — and a carried value is exactly the input
value, unchanged; required fields pass through unchanged; the optional
fills array is carried exactly when present (a JS array is truthy even
when empty), normalized element-wise. -/
theorem transform_optional_fields_truthy :
    (∀ (tk : TickerShort) (v : Nat),
      (transformTickersMessage tk).numTrades = some v ↔ tk.n = some v ∧ v ≠ 0) ∧
    (∀ tk : TickerShort,
      (transformTickersMessage tk).market = tk.m ∧
      (transformTickersMessage tk).closeQuantity = tk.Q ∧
      (transformTickersMessage tk).sequence = tk.u) ∧
    (∀ (od : OrderShort) (v : Nat),
      (transformOrdersMessage od).orderBookSequenceNumber = some v ↔
        od.u = some v ∧ v ≠ 0) ∧
    (∀ (od : OrderShort) (x : String),
      (transformOrdersMessage od).originalQuoteQuantity = some x ↔
        od.Q = some x ∧ x ≠ "") ∧
    (∀ (od : OrderShort) (x : String),
      (transformOrdersMessage od).avgExecutionPrice = some x ↔
        od.v = some x ∧ x ≠ "") ∧
    (∀ (od : OrderShort) (x : String),
      (transformOrdersMessage od).limitOrderPrice = some x ↔
        od.p = some x ∧ x ≠ "") ∧
    (∀ (od : OrderShort) (x : String),
      (transformOrdersMessage od).stopOrderPrice = some x ↔
        od.P = some x ∧ x ≠ "") ∧
    (∀ od : OrderShort,
      (transformOrdersMessage od).fills =
        od.F.map (fun fs => fs.map transformOrderFill)) ∧
    (∀ (fl : OrderFillShort) (x : String),
      (transformOrderFill fl).gas = some x ↔ fl.g = some x ∧ x ≠ "") ∧
    (∀ (fl : OrderFillShort) (x : String),
      (transformOrderFill fl).txId = some x ↔ fl.T = some x ∧ x ≠ "") := by
  refine ⟨fun tk v => ?_, fun tk => ⟨rfl, rfl, rfl⟩, fun od v => ?_, fun od x => ?_,
    fun od x => ?_, fun od x => ?_, fun od x => ?_, fun od => rfl,
    fun fl x => ?_, fun fl x => ?_⟩
  · exact spreadIfTruthyNat_eq_some tk.n v
  · exact spreadIfTruthyNat_eq_some od.u v
  · exact spreadIfTruthyString_eq_some od.Q x
  · exact spreadIfTruthyString_eq_some od.v x
  · exact spreadIfTruthyString_eq_some od.p x
  · exact spreadIfTruthyString_eq_some od.P x
  · exact spreadIfTruthyString_eq_some fl.g x
  · exact spreadIfTruthyString_eq_some fl.T x

/-- A concrete short-form ticker whose trade count is present and equal
to zero. -/
def tickerZeroTrades : TickerShort :=
  { m := "ETH-USDC", t := 1620000000, o := "1.0", h := "1.2", l := "0.9",
    c := "1.1", Q := "5", v := "100", q := "110", P := "10",
    n := some 0, a := "1.15", b := "1.05", u := 42 }

/-- A concrete short-form ticker whose trade count is present and
non-zero. -/
def tickerFiveTrades : TickerShort :=
  { tickerZeroTrades with n := some 5 }

theorem transform_optional_fields_truthy_witness :
    (transformTickersMessage tickerFiveTrades).numTrades = some 5 ∧
    (transformTickersMessage tickerFiveTrades).market = "ETH-USDC" :=
  ⟨(transform_optional_fields_truthy.1 tickerFiveTrades 5).mpr ⟨rfl, by decide⟩,
    (transform_optional_fields_truthy.2.1 tickerFiveTrades).1⟩

/-- C4 counterexample: a payload whose optional trade count is present
with the (falsy) value `0` — the normalized output omits `numTrades`
although the field is present in the input, refuting the
present-iff-carried claim. -/
theorem transform_drops_present_zero_numTrades :
    tickerZeroTrades.n = some 0 ∧
    (transformTickersMessage tickerZeroTrades).numTrades = none := by
  constructor
  · rfl
  · rfl

end IdexWS
